import Mathlib

/-!
Shallow embedding of the background-removal HTTP gateway (`src/main.py`).

The service is a thin FastAPI wrapper: header-based API-key authentication
(`verify_api_key`, lines 43-63), declared-media-type validation, parameter
marshalling onto the external `rembg` collaborator, and response formatting
(`remove_background`, lines 81-153; `remove_background_advanced`,
lines 155-175).

Python truthiness of optional strings (`None` and `""` are falsy) is modelled
by `optFalsy`; the collaborator (`rembg.new_session` / `rembg.remove`) is an
oracle record `Rembg` whose functions either return a value or raise an
exception (`Except String`); the calls actually issued to the collaborator are
recorded in a trace (`List CollabCall`) alongside the HTTP outcome.
-/

deriving instance DecidableEq for Except

/-- Python truthiness of an optional string: `None` and `""` are falsy. -/
def optFalsy : Option String → Bool
  | none => true
  | some s => s.isEmpty

/-- Python `s.startswith(p)`: `p` is a prefix of `s` (character-wise). -/
def pyStartswith (s p : String) : Bool :=
  p.data.isPrefixOf s.data

/-- Python f-string interpolation of an optional string: `None` prints as
the four characters `None`. -/
def pyFStr : Option String → String
  | none => "None"
  | some s => s

/-- Python `file.filename or "image"` (line 144): the filename unless it is
`None` or empty, in which case `"image"`. -/
def pyOrImage : Option String → String
  | none => "image"
  | some s => if s.isEmpty then "image" else s

/-- `fastapi.HTTPException`: an HTTP status code plus a `detail` string. -/
structure HTTPException where
  status_code : Nat
  detail : String
deriving DecidableEq, Repr

/-- `fastapi.UploadFile` as the handler sees it: optional client-declared
filename and content type, plus the payload bytes (from `await file.read()`). -/
structure UploadFile where
  filename : Option String
  content_type : Option String
  content : List Nat
deriving DecidableEq, Repr

/-- The argument record of one call to `rembg.remove` (lines 127-136).
`session` is the opaque session object obtained from `new_session(model)`.
The three `alpha_matting_*` fields are `none` when the corresponding keyword
argument is not passed at the call site (the `else` branch, line 136). -/
structure RemoveArgs where
  data : List Nat
  session : String
  alpha_matting : Option Bool
  alpha_matting_foreground_threshold : Option Int
  alpha_matting_background_threshold : Option Int
  alpha_matting_erode_size : Option Int
deriving DecidableEq, Repr

/-- One call issued to the `rembg` collaborator. -/
inductive CollabCall where
  | new_session (model : String)
  | remove (args : RemoveArgs)
deriving DecidableEq, Repr

/-- The external `rembg` collaborator, an oracle: whether the import succeeds,
and the behaviour of `new_session` and `remove` (`Except.error` models a
raised exception carrying `str(e)`). -/
structure Rembg where
  importOk : Bool
  new_session : String → Except String String
  remove : RemoveArgs → Except String (List Nat)

/-- The successful response built at lines 139-147: body bytes, media type,
and the three custom headers. -/
structure ImageResponse where
  content : List Nat
  media_type : String
  content_disposition : String
  x_original_filename : String
  x_model_used : String
deriving DecidableEq, Repr

/-- `verify_api_key` (lines 43-63): allow everything when no key is
configured; otherwise 401 on a missing/empty header, 401 on a mismatch,
allow on an exact match. -/
def verify_api_key (API_KEY : Option String) (x_api_key : Option String) :
    Except HTTPException Bool :=
  if optFalsy API_KEY then
    .ok true
  else if optFalsy x_api_key then
    .error { status_code := 401, detail := "X-API-Key header is required" }
  else if x_api_key ≠ API_KEY then
    .error { status_code := 401, detail := "Invalid API key" }
  else
    .ok true

/-- The argument record passed to `rembg.remove`: with alpha matting enabled
all keyword arguments are forwarded (lines 127-134), otherwise only the bytes
and the session are passed (line 136). -/
def mkRemoveArgs (file_content : List Nat) (session : String)
    (alpha_matting : Bool)
    (alpha_matting_foreground_threshold : Int)
    (alpha_matting_background_threshold : Int)
    (alpha_matting_erode_size : Int) : RemoveArgs :=
  if alpha_matting then
    { data := file_content
      session := session
      alpha_matting := some alpha_matting
      alpha_matting_foreground_threshold := some alpha_matting_foreground_threshold
      alpha_matting_background_threshold := some alpha_matting_background_threshold
      alpha_matting_erode_size := some alpha_matting_erode_size }
  else
    { data := file_content
      session := session
      alpha_matting := none
      alpha_matting_foreground_threshold := none
      alpha_matting_background_threshold := none
      alpha_matting_erode_size := none }

/-- `remove_background` (lines 81-153): auth dependency, content-type check,
lazy import, `new_session`, `remove`, response assembly; `HTTPException`s are
re-raised and any collaborator exception becomes a 500 with
`"Error processing image: " + str(e)`. The second component records the
collaborator calls actually made, in order. -/
def remove_background (rembg : Rembg) (API_KEY : Option String)
    (x_api_key : Option String) (file : UploadFile)
    (model : String := "u2net")
    (alpha_matting : Bool := false)
    (alpha_matting_foreground_threshold : Int := 240)
    (alpha_matting_background_threshold : Int := 10)
    (alpha_matting_erode_size : Int := 10) :
    Except HTTPException ImageResponse × List CollabCall :=
  match verify_api_key API_KEY x_api_key with
  | .error e => (.error e, [])
  | .ok _ =>
    if optFalsy file.content_type ||
        !(pyStartswith (file.content_type.getD "") "image/") then
      (.error { status_code := 400, detail := "File must be an image" }, [])
    else
      if !rembg.importOk then
        (.error { status_code := 500,
                  detail := "rembg not installed. Please install with: pip install rembg" },
         [])
      else
        match rembg.new_session model with
        | .error e =>
          (.error { status_code := 500, detail := "Error processing image: " ++ e },
           [CollabCall.new_session model])
        | .ok session =>
          match rembg.remove (mkRemoveArgs file.content session alpha_matting
              alpha_matting_foreground_threshold alpha_matting_background_threshold
              alpha_matting_erode_size) with
          | .error e =>
            (.error { status_code := 500, detail := "Error processing image: " ++ e },
             [CollabCall.new_session model,
              CollabCall.remove (mkRemoveArgs file.content session alpha_matting
                alpha_matting_foreground_threshold alpha_matting_background_threshold
                alpha_matting_erode_size)])
          | .ok output =>
            (.ok { content := output
                   media_type := "image/png"
                   content_disposition :=
                     "attachment; filename=bg_removed_" ++ pyFStr file.filename
                   x_original_filename := pyOrImage file.filename
                   x_model_used := model },
             [CollabCall.new_session model,
              CollabCall.remove (mkRemoveArgs file.content session alpha_matting
                alpha_matting_foreground_threshold alpha_matting_background_threshold
                alpha_matting_erode_size)])

/-- `remove_background_advanced` (lines 155-175): forwards every argument to
`remove_background` unchanged, with identical defaults. -/
def remove_background_advanced (rembg : Rembg) (API_KEY : Option String)
    (x_api_key : Option String) (file : UploadFile)
    (model : String := "u2net")
    (alpha_matting : Bool := false)
    (alpha_matting_foreground_threshold : Int := 240)
    (alpha_matting_background_threshold : Int := 10)
    (alpha_matting_erode_size : Int := 10) :
    Except HTTPException ImageResponse × List CollabCall :=
  remove_background rembg API_KEY x_api_key file model alpha_matting
    alpha_matting_foreground_threshold alpha_matting_background_threshold
    alpha_matting_erode_size

/-- A collaborator on which every call succeeds: `new_session` returns the
model name as the session, `remove` echoes the input bytes. -/
def okRembg : Rembg where
  importOk := true
  new_session := fun model => .ok model
  remove := fun args => .ok args.data

/-- A collaborator whose `remove` always raises, with exception text `boom`. -/
def failRembg : Rembg where
  importOk := true
  new_session := fun model => .ok model
  remove := fun _ => .error "boom"

-- Sanity checks on concrete inputs.
example : verify_api_key (some "k") (some "k") = .ok true := by decide
example : verify_api_key (some "k") none =
    .error { status_code := 401, detail := "X-API-Key header is required" } := by decide
example : verify_api_key (some "k") (some "w") =
    .error { status_code := 401, detail := "Invalid API key" } := by decide
example : verify_api_key none (some "anything") = .ok true := by decide
example : pyStartswith "image/png" "image/" = true := by decide
example : pyStartswith "text/plain" "image/" = false := by decide

example :
    remove_background okRembg none none
      { filename := some "a.png", content_type := some "image/png", content := [7] } =
    (.ok { content := [7], media_type := "image/png"
           content_disposition := "attachment; filename=bg_removed_a.png"
           x_original_filename := "a.png", x_model_used := "u2net" },
     [CollabCall.new_session "u2net",
      CollabCall.remove
        { data := [7], session := "u2net", alpha_matting := none
          alpha_matting_foreground_threshold := none
          alpha_matting_background_threshold := none
          alpha_matting_erode_size := none }]) := by decide

/-- A canonical valid upload used to instantiate theorems. -/
def pngFile : UploadFile :=
  { filename := some "a.png", content_type := some "image/png", content := [7] }

-- Helper lemmas shared by several theorems below.

theorem listIsPrefixOfAppend (l m : List Char) : l.isPrefixOf (l ++ m) = true := by
  induction l with
  | nil => simp [List.isPrefixOf]
  | cons c cs ih => simp [List.isPrefixOf, ih]

theorem stringDataAppend (s t : String) : (s ++ t).data = s.data ++ t.data := by
  cases s
  cases t
  rfl

theorem ctNotEmptyOfStartswithImage (ct : String)
    (h : pyStartswith ct "image/" = true) : ct.isEmpty = false := by
  by_contra hc
  rw [Bool.not_eq_false, String.isEmpty_iff] at hc
  subst hc
  exact absurd h (by decide)

theorem errorProcessingDetailStartswith (msg : String) :
    pyStartswith ("Error processing image: " ++ msg) "Error processing image" = true := by
  have e : ("Error processing image: ").data =
      ("Error processing image").data ++ (": ").data := by decide
  simp only [pyStartswith, stringDataAppend, e, List.append_assoc]
  exact listIsPrefixOfAppend _ _

/-- Shape of every successful response of `remove_background`: PNG media type,
the two filename-derived headers, and the model header. -/
theorem remove_background_ok_shape (rembg : Rembg) (API_KEY x_api_key : Option String)
    (file : UploadFile) (model : String) (am : Bool) (fg bg er : Int)
    (resp : ImageResponse)
    (h : (remove_background rembg API_KEY x_api_key file model am fg bg er).1 = .ok resp) :
    resp.media_type = "image/png" ∧
    resp.content_disposition = "attachment; filename=bg_removed_" ++ pyFStr file.filename ∧
    resp.x_original_filename = pyOrImage file.filename ∧
    resp.x_model_used = model := by
  unfold remove_background at h
  split at h
  · simp at h
  · split at h
    · simp at h
    · split at h
      · simp at h
      · split at h
        · simp at h
        · split at h
          · simp at h
          · simp only [Except.ok.injEq] at h
            subst h
            exact ⟨rfl, rfl, rfl, rfl⟩

/-- C1: the authenticator allows a request iff no secret is configured
process-wide (falsy `API_KEY`) or the provided header value equals the
configured secret exactly; with a secret configured, an absent or empty
header is rejected 401 with the header-required message, and a present but
mismatched header is rejected 401 with the invalid-key message. -/
theorem C1_verify_api_key_contract (API_KEY x_api_key : Option String) :
    (verify_api_key API_KEY x_api_key = .ok true ↔
      (optFalsy API_KEY = true ∨ x_api_key = API_KEY)) ∧
    (optFalsy API_KEY = false → optFalsy x_api_key = true →
      verify_api_key API_KEY x_api_key =
        .error { status_code := 401, detail := "X-API-Key header is required" }) ∧
    (optFalsy API_KEY = false → optFalsy x_api_key = false → x_api_key ≠ API_KEY →
      verify_api_key API_KEY x_api_key =
        .error { status_code := 401, detail := "Invalid API key" }) := by
  refine ⟨?_, ?_, ?_⟩
  · by_cases hA : optFalsy API_KEY
    · simp [verify_api_key, hA]
    · by_cases he : x_api_key = API_KEY
      · subst he
        simp [verify_api_key, hA]
      · by_cases hx : optFalsy x_api_key
        · simp [verify_api_key, hA, hx, he]
        · simp [verify_api_key, hA, hx, he]
  · intro hA hx
    simp [verify_api_key, hA, hx]
  · intro hA hx he
    simp [verify_api_key, hA, hx, he]

/-- C1 witness: with secret `secret` configured, a missing header is rejected
with the header-required message. -/
theorem C1_verify_api_key_contract_witness :
    verify_api_key (some "secret") none =
      .error { status_code := 401, detail := "X-API-Key header is required" } :=
  (C1_verify_api_key_contract (some "secret") none).2.1 (by decide) (by decide)

/-- C2 fails as stated: when the upload carries no original filename, the
success path (line 143) interpolates Python `None` into the f-string, so the
Content-Disposition filename is `bg_removed_None`, not `bg_removed_image`. -/
theorem C2_response_headers_counterexample :
    (remove_background okRembg none none
        { filename := none, content_type := some "image/png", content := [1] }).1 =
      .ok { content := [1], media_type := "image/png"
            content_disposition := "attachment; filename=bg_removed_None"
            x_original_filename := "image", x_model_used := "u2net" } ∧
    "attachment; filename=bg_removed_None" ≠ "attachment; filename=bg_removed_image" :=
  ⟨by decide, by decide⟩

/-- C2 amended: on success the Content-Disposition header is
`attachment; filename=bg_removed_` followed by the original filename —
interpolated as by a Python f-string, hence the literal `None` when the
filename is absent — and X-Original-Filename is the original filename, or
`image` when the filename is absent or empty. -/
theorem C2_response_headers (rembg : Rembg) (API_KEY x_api_key : Option String)
    (file : UploadFile) (model : String) (am : Bool) (fg bg er : Int)
    (resp : ImageResponse)
    (h : (remove_background rembg API_KEY x_api_key file model am fg bg er).1 = .ok resp) :
    (file.filename = none →
      resp.content_disposition = "attachment; filename=bg_removed_None" ∧
      resp.x_original_filename = "image") ∧
    (∀ s, file.filename = some s →
      resp.content_disposition = "attachment; filename=bg_removed_" ++ s ∧
      resp.x_original_filename = (if s.isEmpty then "image" else s)) := by
  obtain ⟨-, hcd, hof, -⟩ :=
    remove_background_ok_shape rembg API_KEY x_api_key file model am fg bg er resp h
  constructor
  · intro hf
    rw [hf] at hcd hof
    exact ⟨by rw [hcd]; decide, by rw [hof]; decide⟩
  · intro s hf
    rw [hf] at hcd hof
    exact ⟨by rw [hcd]; rfl, by rw [hof]; rfl⟩

/-- C2 witness: a concrete successful call with filename `a.png` has
Content-Disposition `attachment; filename=bg_removed_a.png` and
X-Original-Filename `a.png`. -/
theorem C2_response_headers_witness :
    ({ content := [7], media_type := "image/png"
       content_disposition := "attachment; filename=bg_removed_a.png"
       x_original_filename := "a.png"
       x_model_used := "u2net" } : ImageResponse).content_disposition =
        "attachment; filename=bg_removed_" ++ "a.png" ∧
    ({ content := [7], media_type := "image/png"
       content_disposition := "attachment; filename=bg_removed_a.png"
       x_original_filename := "a.png"
       x_model_used := "u2net" } : ImageResponse).x_original_filename =
        (if ("a.png").isEmpty then "image" else "a.png") :=
  (C2_response_headers okRembg none none pngFile "u2net" false 240 10 10 _
    (by decide)).2 "a.png" rfl

/-- C3: the alpha-matting numeric parameters reach the collaborator exactly
as bound from the request — forwarded unchanged (no clamping, any integers
including negative ones) when alpha matting is enabled, and not passed at all
when it is disabled. -/
theorem C3_thresholds_passed_unchanged (rembg : Rembg)
    (API_KEY x_api_key : Option String) (file : UploadFile) (model : String)
    (am : Bool) (fg bg er : Int) (a : RemoveArgs)
    (h : CollabCall.remove a ∈
      (remove_background rembg API_KEY x_api_key file model am fg bg er).2) :
    (am = true →
      a.alpha_matting_foreground_threshold = some fg ∧
      a.alpha_matting_background_threshold = some bg ∧
      a.alpha_matting_erode_size = some er) ∧
    (am = false →
      a.alpha_matting_foreground_threshold = none ∧
      a.alpha_matting_background_threshold = none ∧
      a.alpha_matting_erode_size = none) := by
  unfold remove_background at h
  split at h
  · simp at h
  · split at h
    · simp at h
    · split at h
      · simp at h
      · split at h
        · simp at h
        · split at h
          all_goals
            simp at h
            subst h
            cases am <;> simp [mkRemoveArgs]

/-- C3 witness: with alpha matting enabled, the out-of-range negative
thresholds -5, -7, -9 reach the collaborator unchanged. -/
theorem C3_thresholds_passed_unchanged_witness :
    (mkRemoveArgs [7] "u2net" true (-5) (-7) (-9)).alpha_matting_foreground_threshold =
        some (-5) ∧
    (mkRemoveArgs [7] "u2net" true (-5) (-7) (-9)).alpha_matting_background_threshold =
        some (-7) ∧
    (mkRemoveArgs [7] "u2net" true (-5) (-7) (-9)).alpha_matting_erode_size =
        some (-9) :=
  (C3_thresholds_passed_unchanged okRembg none none pngFile "u2net" true (-5) (-7) (-9)
    (mkRemoveArgs [7] "u2net" true (-5) (-7) (-9)) (by decide)).1 rfl

/-- C4: when `rembg.remove` raises during processing, the response is a 500
whose detail is the exception text appended to `Error processing image: ` —
in particular it starts with `Error processing image` — and the trace holds
exactly one remove call: no retry is attempted. -/
theorem C4_collaborator_exception_500 (rembg : Rembg)
    (API_KEY x_api_key : Option String) (file : UploadFile) (model : String)
    (am : Bool) (fg bg er : Int) (ct session msg : String)
    (hauth : verify_api_key API_KEY x_api_key = .ok true)
    (hct : file.content_type = some ct)
    (himg : pyStartswith ct "image/" = true)
    (himp : rembg.importOk = true)
    (hsess : rembg.new_session model = .ok session)
    (hrem : rembg.remove (mkRemoveArgs file.content session am fg bg er) = .error msg) :
    remove_background rembg API_KEY x_api_key file model am fg bg er =
      (.error { status_code := 500, detail := "Error processing image: " ++ msg },
       [CollabCall.new_session model,
        CollabCall.remove (mkRemoveArgs file.content session am fg bg er)]) ∧
    pyStartswith ("Error processing image: " ++ msg) "Error processing image" = true ∧
    ((remove_background rembg API_KEY x_api_key file model am fg bg er).2.filter
        (fun c => match c with | CollabCall.remove _ => true | _ => false)).length = 1 := by
  have hne := ctNotEmptyOfStartswithImage ct himg
  have h1 : remove_background rembg API_KEY x_api_key file model am fg bg er =
      (.error { status_code := 500, detail := "Error processing image: " ++ msg },
       [CollabCall.new_session model,
        CollabCall.remove (mkRemoveArgs file.content session am fg bg er)]) := by
    simp [remove_background, hauth, hct, optFalsy, hne, himg, himp, hsess, hrem]
  refine ⟨h1, errorProcessingDetailStartswith msg, ?_⟩
  rw [h1]
  rfl

/-- C4 witness: a collaborator that raises `boom` yields the 500 response and
a single remove call. -/
theorem C4_collaborator_exception_500_witness :
    remove_background failRembg none none pngFile "u2net" false 240 10 10 =
      (.error { status_code := 500, detail := "Error processing image: " ++ "boom" },
       [CollabCall.new_session "u2net",
        CollabCall.remove (mkRemoveArgs pngFile.content "u2net" false 240 10 10)]) ∧
    pyStartswith ("Error processing image: " ++ "boom") "Error processing image" = true ∧
    ((remove_background failRembg none none pngFile "u2net" false 240 10 10).2.filter
        (fun c => match c with | CollabCall.remove _ => true | _ => false)).length = 1 :=
  C4_collaborator_exception_500 failRembg none none pngFile "u2net" false 240 10 10
    "image/png" "u2net" "boom" (by decide) rfl (by decide) rfl rfl rfl

/-- C5: on an authenticated request whose declared content type does not
start with `image/` (including an absent type), the response is 400
`File must be an image` with no collaborator call, whatever the payload
bytes are. -/
theorem C5_content_type_validation (rembg : Rembg)
    (API_KEY x_api_key : Option String) (file : UploadFile) (model : String)
    (am : Bool) (fg bg er : Int)
    (hauth : verify_api_key API_KEY x_api_key = .ok true)
    (hct : ∀ s, file.content_type = some s → pyStartswith s "image/" = false) :
    remove_background rembg API_KEY x_api_key file model am fg bg er =
      (.error { status_code := 400, detail := "File must be an image" }, []) := by
  rcases hc : file.content_type with _ | s
  · simp [remove_background, hauth, hc, optFalsy]
  · simp [remove_background, hauth, hc, optFalsy, hct s hc]

/-- C5 witness: a text upload is rejected 400 regardless of its bytes. -/
theorem C5_content_type_validation_witness :
    remove_background okRembg none none
      { filename := some "a.txt", content_type := some "text/plain", content := [9] } =
    (.error { status_code := 400, detail := "File must be an image" }, []) :=
  C5_content_type_validation okRembg none none
    { filename := some "a.txt", content_type := some "text/plain", content := [9] }
    "u2net" false 240 10 10 (by decide)
    (by intro s hs; cases hs; decide)

/-- C6: every successful response has media type exactly `image/png`,
whatever the input was. -/
theorem C6_png_media_type (rembg : Rembg) (API_KEY x_api_key : Option String)
    (file : UploadFile) (model : String) (am : Bool) (fg bg er : Int)
    (resp : ImageResponse)
    (h : (remove_background rembg API_KEY x_api_key file model am fg bg er).1 = .ok resp) :
    resp.media_type = "image/png" :=
  (remove_background_ok_shape rembg API_KEY x_api_key file model am fg bg er resp h).1

/-- C6 witness: a concrete successful call yields media type `image/png`. -/
theorem C6_png_media_type_witness :
    ({ content := [7], media_type := "image/png"
       content_disposition := "attachment; filename=bg_removed_a.png"
       x_original_filename := "a.png"
       x_model_used := "u2net" } : ImageResponse).media_type = "image/png" :=
  C6_png_media_type okRembg none none pngFile "u2net" false 240 10 10 _ (by decide)

/-- C7: the X-Model-Used header of every successful response equals the model
bound from the request, and equals `u2net` when the model field is omitted
(the handler's default). -/
theorem C7_model_used_header (rembg : Rembg) (API_KEY x_api_key : Option String)
    (file : UploadFile) (model : String) (am : Bool) (fg bg er : Int) :
    (∀ resp, (remove_background rembg API_KEY x_api_key file model am fg bg er).1 =
        .ok resp → resp.x_model_used = model) ∧
    (∀ resp, (remove_background rembg API_KEY x_api_key file).1 = .ok resp →
      resp.x_model_used = "u2net") := by
  constructor
  · intro resp h
    exact (remove_background_ok_shape rembg API_KEY x_api_key file model am fg bg er
      resp h).2.2.2
  · intro resp h
    exact (remove_background_ok_shape rembg API_KEY x_api_key file "u2net" false 240 10 10
      resp h).2.2.2

/-- C7 witness: requesting model `silueta` yields X-Model-Used `silueta`. -/
theorem C7_model_used_header_witness :
    ({ content := [7], media_type := "image/png"
       content_disposition := "attachment; filename=bg_removed_a.png"
       x_original_filename := "a.png"
       x_model_used := "silueta" } : ImageResponse).x_model_used = "silueta" :=
  (C7_model_used_header okRembg none none pngFile "silueta" false 240 10 10).1 _ (by decide)

/-- C8: `/bg/remove-advanced` is a pure alias of `/bg/remove`: on every
input (collaborator, configured key, header, file, model, alpha-matting flag,
thresholds, erode size) it produces the identical response and the identical
collaborator trace. -/
theorem C8_advanced_is_alias (rembg : Rembg) (API_KEY x_api_key : Option String)
    (file : UploadFile) (model : String) (am : Bool) (fg bg er : Int) :
    remove_background_advanced rembg API_KEY x_api_key file model am fg bg er =
      remove_background rembg API_KEY x_api_key file model am fg bg er := rfl

/-- C9: with alpha matting disabled, the threshold and erode parameters have
no observable effect: any two requests differing only in those values produce
the identical collaborator trace and the identical response. -/
theorem C9_thresholds_inert_when_matting_disabled (rembg : Rembg)
    (API_KEY x_api_key : Option String) (file : UploadFile) (model : String)
    (fg1 bg1 er1 fg2 bg2 er2 : Int) :
    remove_background rembg API_KEY x_api_key file model false fg1 bg1 er1 =
      remove_background rembg API_KEY x_api_key file model false fg2 bg2 er2 := by
  have hm : ∀ (c : List Nat) (s : String) (x y z : Int),
      mkRemoveArgs c s false x y z = mkRemoveArgs c s false fg2 bg2 er2 := by
    intro c s x y z
    simp [mkRemoveArgs]
  simp only [remove_background, hm]

/-- C10: whenever the handler answers 401 (authentication) or 400 (file-type
validation), the collaborator trace is empty: no session is created and
remove is never called. -/
theorem C10_no_collaborator_call_before_reject (rembg : Rembg)
    (API_KEY x_api_key : Option String) (file : UploadFile) (model : String)
    (am : Bool) (fg bg er : Int) (e : HTTPException)
    (h : (remove_background rembg API_KEY x_api_key file model am fg bg er).1 = .error e)
    (hs : e.status_code = 401 ∨ e.status_code = 400) :
    (remove_background rembg API_KEY x_api_key file model am fg bg er).2 = [] := by
  cases hv : verify_api_key API_KEY x_api_key with
  | error e2 =>
    simp [remove_background, hv]
  | ok b =>
    by_cases hcnd : (optFalsy file.content_type ||
        !pyStartswith (file.content_type.getD "") "image/") = true
    · simp [remove_background, hv, hcnd]
    · by_cases himp : (!rembg.importOk) = true
      · simp [remove_background, hv, hcnd, himp]
      · cases hns : rembg.new_session model with
        | error e3 =>
          simp [remove_background, hv, hcnd, himp, hns] at h
          subst h
          simp at hs
        | ok session =>
          cases hr : rembg.remove (mkRemoveArgs file.content session am fg bg er) with
          | error e4 =>
            simp [remove_background, hv, hcnd, himp, hns, hr] at h
            subst h
            simp at hs
          | ok output =>
            simp [remove_background, hv, hcnd, himp, hns, hr] at h

/-- C10 witness: an unauthenticated request (configured key, missing header)
is rejected 401 with an empty collaborator trace. -/
theorem C10_no_collaborator_call_before_reject_witness :
    (remove_background okRembg (some "k") none pngFile).2 = [] :=
  C10_no_collaborator_call_before_reject okRembg (some "k") none pngFile
    "u2net" false 240 10 10
    { status_code := 401, detail := "X-API-Key header is required" }
    (by decide) (Or.inl rfl)
